import Mathlib

/-
Shallow embedding of jmenashe/python-path-specification.

Source files embedded:
  src/pathspec/pathspec.py                  (class PathSpec)
  src/pathspec/patterns/grepwildmatch.py    (class GrepWildMatchPattern)

The repository's `util` module and the `gitwildmatch` pattern module are not
part of src/; definitions standing in for them are marked
"Modelled from the spec:" in their doc comments and follow the
specification's words (sections 3, 4.1, 4.2, 6, 9).

Python exceptions are embedded as `Except PyErr`; mutation of a receiver is
embedded by returning the post-state of the receiver alongside the result.
-/

namespace Pathspec

/-- Python exceptions that the embedded code can raise. -/
inductive PyErr where
  | typeError (msg : String)
  | attributeError (msg : String)
  | nameError (msg : String)
  deriving DecidableEq, Repr

/-! ## The match engine (spec section 4.2; `util.match_file` / `util.match_files`)

Modelled from the spec: the repository's `util` module is not under src/.
A pattern, as the match engine consumes it, is a matcher predicate over
normalized path strings together with its include polarity (spec section 3). -/

/-- Modelled from the spec: the view of a compiled pattern that the match
engine consumes — an opaque matcher predicate over a normalized path string
and the boolean `include` polarity (field `include'`, since `include` is a Lean keyword) (spec section 3). -/
structure Pattern where
  matcher : String → Bool
  include' : Bool

/-- Modelled from the spec: `util.match_file` (the single-path contract of
section 4.2). Initialize `verdict = false`; for each pattern in order, if
`pattern.matcher path` is true, set `verdict` to `pattern.include`; return
the final verdict. -/
def match_file (patterns : List Pattern) (file : String) : Bool :=
  patterns.foldl (fun verdict p => if p.matcher file then p.include' else verdict) false

/-- Modelled from the spec: `util.match_files` (the batch contract of section
4.2, recommended algorithm). Maintain a mapping from path to current verdict
(absent = false); for each pattern in order, for each candidate path accepted
by that pattern's matcher, set the mapping at that path to the pattern's
include polarity; finally return the paths whose mapping value is true. -/
def match_files (patterns : List Pattern) (files : List String) : List String :=
  let verdict : String → Bool :=
    patterns.foldl
      (fun m p =>
        files.foldl (fun m f => if p.matcher f then (fun g => if g = f then p.include' else m g) else m) m)
      (fun _ => false)
  files.filter verdict

/-! ## The pattern compiler (spec sections 3 and 4.1; the factory modules)

Modelled from the spec: the `gitwildmatch` factory module is not under src/
(src/pathspec/patterns/grepwildmatch.py derives `GrepWildMatchPattern` from
it). The compiler contract is `compile(line) -> Pattern | none`: blank lines
and comment lines yield no pattern at all. The wildcard-to-matcher
translation of section 4.1 is not consumed by any claim below (the match
claims quantify over opaque matchers), so the compiled representation keeps
the metadata of spec section 3 — source text, include polarity, anchoring,
directory-only flag — and no matcher field. -/

/-- Modelled from the spec: the compiled representation of one non-blank,
non-comment source line (spec section 3): the original text (`source`, used
for equality), the include polarity (`include'`), and the `anchored` and
`dir_only` flags. -/
structure CompiledPattern where
  source : String
  include' : Bool
  anchored : Bool
  dir_only : Bool
  deriving DecidableEq, Repr

/-- Modelled from the spec: step 1 of the section 4.1 preprocessing on the
reversed character list — trailing unescaped whitespace is discarded; a
trailing whitespace character preceded by a backslash is preserved
literally. -/
def dropTrailingWs : List Char → List Char
  | [] => []
  | [c] => if c.isWhitespace then [] else [c]
  | c :: d :: rest =>
    if c.isWhitespace then
      if d = '\\' then c :: d :: rest
      else dropTrailingWs (d :: rest)
    else c :: d :: rest

/-- Modelled from the spec: the whole of preprocessing step 1 — strip the
trailing unescaped whitespace of a line. -/
def stripTrailingWs (s : String) : String :=
  String.mk (dropTrailingWs s.data.reverse).reverse

namespace GrepWildMatchPattern

/-- Modelled from the spec: the marker parsing of section 4.1 steps 4 to 6 on
the preprocessed character list — a leading unescaped `!` flips the include
polarity, a leading `/` (after the polarity marker) sets `anchored`, an
unescaped trailing `/` sets `dir_only`. A leading backslash escape leaves the
markers literal, so the defaults stand. -/
def parseMarkers (source : String) (cs : List Char) : CompiledPattern :=
  let step4 : Bool × List Char :=
    match cs with
    | '!' :: rest => (false, rest)
    | _ => (true, cs)
  let step5 : Bool × List Char :=
    match step4.2 with
    | '/' :: rest => (true, rest)
    | _ => (false, step4.2)
  let dir_only : Bool :=
    match step5.2.reverse with
    | '/' :: '\\' :: _ => false
    | '/' :: _ => true
    | _ => false
  { source := source, include' := step4.1, anchored := step5.1, dir_only := dir_only }

/-- Modelled from the spec: the pattern factory
`compile(line) -> Pattern | none` of section 4.1, as registered by
src/pathspec/patterns/grepwildmatch.py under the dialect name
`grepwildmatch`. After step 1 strips trailing unescaped whitespace, an empty
line (step 2) or a line whose first character is an unescaped `#` (step 3)
produces no pattern; otherwise the markers of steps 4 to 6 are parsed. (A
line starting with a backslash escape has `\\` as its first character, so it
is never taken for a comment.) -/
def compile (line : String) : Option CompiledPattern :=
  match (stripTrailingWs line).data with
  | [] => none
  | '#' :: _ => none
  | cs => some (parseMarkers line cs)

end GrepWildMatchPattern

/-! ## Python values, the dialect registry, and type-shape checks -/

/-- The Python values the embedded entry points can receive: a string, a
list of path or line strings, a callable pattern factory, `None`, or an
integer (standing for any value that is neither callable nor iterable). -/
inductive PyVal where
  | str (s : String)
  | strList (ls : List String)
  | factory (f : String → Option CompiledPattern)
  | pyNone
  | intVal (n : Int)

/-- Python `callable`: of the embedded values only a pattern factory is
callable. -/
def callable : PyVal → Bool
  | .factory _ => true
  | _ => false

/-- Modelled from the spec: `util._is_iterable` — the type-shape check of
section 7 for a line or path sequence. Strings and lists are iterable;
`None`, numbers and callables are not. -/
def _is_iterable : PyVal → Bool
  | .str _ => true
  | .strList _ => true
  | _ => false

/-- Modelled from the spec: `util.lookup_pattern`, the dialect registry of
sections 6 and 9 — a static name-to-factory table. The only registration in
src/ is `util.register_pattern("grepwildmatch", GrepWildMatchPattern)` in
src/pathspec/patterns/grepwildmatch.py; an unregistered name resolves to the
not-found result, embedded as Python `None`. -/
def lookup_pattern (name : String) : PyVal :=
  if name = "grepwildmatch" then .factory GrepWildMatchPattern.compile else .pyNone

/-- The list of lines an iterable Python value yields: a list yields its
elements; a string yields its characters (each a one-character string), as
Python iteration over a string does. Non-iterable values yield nothing;
the callers below only reach this after the `_is_iterable` check. -/
def linesOf : PyVal → List String
  | .strList ls => ls
  | .str s => s.data.map (fun c => String.mk [c])
  | _ => []

/-! ## The `PathSpec` class (src/pathspec/pathspec.py) -/

/-- The state of a `PathSpec` instance: the five attributes set by
`PathSpec.__init__` and by `PathSpec.push_specfile` (src/pathspec/pathspec.py
lines 18-33, 104-122). `patterns` holds the results of calling the pattern
factory, which per its contract are `Pattern | None` — hence
`Option CompiledPattern` entries. `parent` and `child` are the references of
the specfile chain. -/
inductive PathSpec : Type where
  | mk (pattern_factory : PyVal) (lines : List String)
      (patterns : List (Option CompiledPattern))
      (parent : Option PathSpec) (child : Option PathSpec) : PathSpec

/-- Attribute `pattern_factory` of a `PathSpec`. -/
def PathSpec.pattern_factory : PathSpec → PyVal
  | .mk pf _ _ _ _ => pf

/-- Attribute `lines` of a `PathSpec`. -/
def PathSpec.lines : PathSpec → List String
  | .mk _ ls _ _ _ => ls

/-- Attribute `patterns` of a `PathSpec`. -/
def PathSpec.patterns : PathSpec → List (Option CompiledPattern)
  | .mk _ _ ps _ _ => ps

/-- Attribute `parent` of a `PathSpec`. -/
def PathSpec.parent : PathSpec → Option PathSpec
  | .mk _ _ _ par _ => par

/-- Attribute `child` of a `PathSpec`. -/
def PathSpec.child : PathSpec → Option PathSpec
  | .mk _ _ _ _ ch => ch

/-- Constructor `PathSpec.__init__` (src/pathspec/pathspec.py lines 18-33) with a
factory argument: stores the factory and the lines, and sets
`self.patterns = [self.pattern_factory(line) for line in self.lines if line]`
— the comprehension calls the factory on every truthy (non-empty) line and
keeps every result, whatever it is. `parent` is stored as given and `child`
starts as `None`. -/
def PathSpec.init (f : String → Option CompiledPattern) (lines : List String)
    (parent : Option PathSpec) : PathSpec :=
  .mk (.factory f) lines ((lines.filter (fun l => l != "")).map f) parent none

/-- Method `PathSpec.__len__` (src/pathspec/pathspec.py lines 46-51): the number of
entries of `self.patterns`. -/
def PathSpec.len (self : PathSpec) : Nat :=
  self.patterns.length

/-- The element comparison of `PathSpec.__eq__`: Python `==` on two entries
of the padded pattern sequences. `None == None` is true (the `izip_longest`
fill value is the same `None` as a `None` entry of `patterns`); a pattern
never equals `None`; two patterns compare by their compiled data (modelled
from the spec: section 3 keeps `source` for equality; the derived metadata is
a function of the source, so structural equality of `CompiledPattern` is
source equality for factory output). -/
def pyEq (a b : Option CompiledPattern) : Bool :=
  decide (a = b)

/-- The tail of the `izip_longest` comparison once the first sequence is
exhausted: every remaining entry of the second sequence is compared against
the `None` padding. -/
def py_all_none : List (Option CompiledPattern) → Bool
  | [] => true
  | y :: ys => pyEq none y && py_all_none ys

/-- Method `PathSpec.__eq__` (src/pathspec/pathspec.py lines 35-44) on the two
`patterns` attributes: `all(a == b for a, b in izip_longest(xs, ys))`,
where `izip_longest` pads the shorter sequence with `None`. -/
def py_all_eq : List (Option CompiledPattern) → List (Option CompiledPattern) → Bool
  | [], ys => py_all_none ys
  | x :: xs, [] => pyEq x none && py_all_eq xs []
  | x :: xs, y :: ys => pyEq x y && py_all_eq xs ys

/-- Method `PathSpec.__eq__` (src/pathspec/pathspec.py lines 35-44) between two
`PathSpec` instances. -/
def PathSpec.eq (self other : PathSpec) : Bool :=
  py_all_eq self.patterns other.patterns

/-- The first lines of `PathSpec.from_lines` (src/pathspec/pathspec.py lines
70-73): a string argument is resolved through the dialect registry, any
other argument stands for itself. -/
def resolveFactory : PyVal → PyVal
  | .str name => lookup_pattern name
  | v => v

/-- Classmethod `PathSpec.from_lines` (src/pathspec/pathspec.py lines 54-78): resolve a
string `pattern_factory` through the registry; raise `TypeError` if the
result is not callable; raise `TypeError` if `lines` is not iterable;
otherwise construct the instance via `cls(lines=lines,
pattern_factory=pattern_factory)`, with no parent. -/
def PathSpec.from_lines (pattern_factory : PyVal) (lines : PyVal) :
    Except PyErr PathSpec :=
  match resolveFactory pattern_factory with
  | .factory f =>
    if _is_iterable lines then
      .ok (PathSpec.init f (linesOf lines) none)
    else
      .error (.typeError "lines is not an iterable.")
  | _ => .error (.typeError "pattern_factory is not callable.")

/-- Classmethod `PathSpec.from_specfile` (src/pathspec/pathspec.py lines 80-102). The
filesystem is embedded as a partial map from paths to line lists
(`os.path.isfile` holding exactly on its domain); a missing file raises the
method's `TypeError`. When the file exists, the body executes
`spec = cls.from_lines(specfile_handle)`: a call of the classmethod
`from_lines`, whose required positional parameters are `(pattern_factory,
lines)`, with a single argument. Python raises
`TypeError: from_lines() missing 1 required positional argument` at this
call, before the body of `from_lines` runs, so `pattern_factory` and the
file contents are never consumed. -/
def PathSpec.from_specfile (pattern_factory : PyVal)
    (fs : String → Option (List String)) (specfile_path : String) :
    Except PyErr PathSpec :=
  match fs specfile_path with
  | none => .error (.typeError "specfile_path is not a file path.")
  | some _ => .error (.typeError "from_lines missing 1 required positional argument")

/-- The `PathSpec` value `self` becomes when `self.child` is assigned. -/
def PathSpec.set_child (self : PathSpec) (c : Option PathSpec) : PathSpec :=
  .mk self.pattern_factory self.lines self.patterns self.parent c

/-- Method `PathSpec.push_specfile` (src/pathspec/pathspec.py lines 104-122). The
first component is the value the method returns (or the exception it
raises); the second component is the post-state of the receiver `self`. The
body first evaluates `PathSpec.from_specfile(self.pattern_factory,
specfile_path)`; an exception there propagates before any of the later
assignments, leaving `self` untouched. On a normal return the child takes
the concatenated lines and patterns, `child.parent` is set to `self`, and
`self.child` is set to the child, which is returned. -/
def PathSpec.push_specfile (self : PathSpec) (fs : String → Option (List String))
    (specfile_path : String) : Except PyErr PathSpec × PathSpec :=
  match PathSpec.from_specfile self.pattern_factory fs specfile_path with
  | .error e => (.error e, self)
  | .ok child0 =>
    let child : PathSpec :=
      .mk child0.pattern_factory (self.lines ++ child0.lines)
        (self.patterns ++ child0.patterns) (some self) child0.child
    (.ok child, self.set_child (some child))

/-- Method `PathSpec.pop_specfile` (src/pathspec/pathspec.py lines 124-127). The
first component is the returned parent (or the raised `AttributeError` when
`self.parent` is `None`); the second component is the post-state of the
receiver, which the body never assigns to. -/
def PathSpec.pop_specfile (self : PathSpec) : Except PyErr PathSpec × PathSpec :=
  (match self.parent with
   | none => .error (.attributeError
      "The current specfile has no parent and cannot fulfill the pop request.")
   | some p => .ok p,
   self)

/-- Method `PathSpec.match_file` (src/pathspec/pathspec.py lines 129-143):
normalize the file path through the collaborator `norm` (standing for
`util.normalize_file` with the chosen separators, spec section 6) and give
the verdict of `util.match_file` on `self.patterns`. `patterns` stands for
the matcher view of the receiver's compiled patterns. -/
def PathSpec.match_file (patterns : List Pattern) (norm : String → String)
    (file : String) : Bool :=
  Pathspec.match_file patterns (norm file)

/-- The association of normalized path to original value built by
`util.normalize_files` / `util._normalize_entries` (spec section 6), as a
list of pairs in input order; a Python dict keeps the last value written
under each key, so lookups below take the last matching pair. -/
def normalizeMap (norm : String → String) (files : List String) :
    List (String × String) :=
  files.map (fun f => (norm f, f))

/-- The lookup `file_map[path]` on the association list: the value of the
last pair with the given key, as a Python dict would hold. -/
def lookupLast (pairs : List (String × String)) (key : String) : Option String :=
  ((pairs.filter (fun kv => kv.1 == key)).getLast?).map Prod.snd

/-- Method `PathSpec.match_files` (src/pathspec/pathspec.py lines 168-190): raise
`TypeError` if `files` is not iterable; otherwise build the normalized map,
run `util.match_files` over its keys (each key once, as `iterkeys` of the
dict yields), and yield the original value stored under each matched key.
`patterns` stands for the matcher view of the receiver's compiled
patterns. -/
def PathSpec.match_files (patterns : List Pattern) (norm : String → String)
    (files : PyVal) : Except PyErr (List String) :=
  if _is_iterable files then
    let pairs := normalizeMap norm (linesOf files)
    let matched := Pathspec.match_files patterns (pairs.map Prod.fst).dedup
    .ok (matched.filterMap (lookupLast pairs))
  else
    .error (.typeError "files is not an iterable.")

/-- Method `PathSpec.match_entries` (src/pathspec/pathspec.py lines 145-166): raise
`TypeError` if `entries` is not iterable; otherwise proceed as
`match_files` does, over the entry map of `util._normalize_entries` (an
entry is embedded by its path string). -/
def PathSpec.match_entries (patterns : List Pattern) (norm : String → String)
    (entries : PyVal) : Except PyErr (List String) :=
  if _is_iterable entries then
    let pairs := normalizeMap norm (linesOf entries)
    let matched := Pathspec.match_files patterns (pairs.map Prod.fst).dedup
    .ok (matched.filterMap (lookupLast pairs))
  else
    .error (.typeError "entries is not an iterable.")

/-! ## The `GrepWildMatchPattern` class (src/pathspec/patterns/grepwildmatch.py) -/

/-- Function `os.path.basename` of the Python standard library (POSIX semantics): the
part of the path after its final slash. -/
def basename (p : String) : String :=
  String.mk (p.data.reverse.takeWhile (fun c => c != '/')).reverse

/-- The intent of `GrepWildMatchPattern.is_specfile`
(src/pathspec/patterns/grepwildmatch.py lines 3-6): the body reads
`return os.path.basename(file_path) == ".grepignore"`. -/
def GrepWildMatchPattern.is_specfile (file_path : String) : Bool :=
  basename file_path == ".grepignore"

/-- The runtime behavior of a call to `GrepWildMatchPattern.is_specfile` in
src/pathspec/patterns/grepwildmatch.py as written: the module contains no
binding for the name `os` (its only statements are
`from .gitwildmatch import GrepWildMatchPattern`, the class statement, and
the registration call; none binds `os`), so evaluating the body raises
`NameError` for the name `os` instead of returning a boolean. (The module
cannot even be imported: the base-class name `GitWildMatchPattern` and the
name `util` are unbound as well.) -/
def GrepWildMatchPattern.is_specfile_call (file_path : String) : Except PyErr Bool :=
  .error (.nameError "name os is not defined")

/-! ## Helper lemmas for the match engine -/

/-- The verdict fold is unchanged by a run of patterns none of which accepts
the path. -/
theorem foldl_verdict_of_no_match (P : List Pattern) (f : String) (v : Bool)
    (h : ∀ p ∈ P, p.matcher f = false) :
    P.foldl (fun verdict p => if p.matcher f then p.include' else verdict) v = v := by
  induction P generalizing v with
  | nil => rfl
  | cons p P ih =>
    have hp : p.matcher f = false := h p (List.mem_cons_self p P)
    simp only [List.foldl_cons, hp, Bool.false_eq_true, if_false]
    exact ih v (fun q hq => h q (List.mem_cons_of_mem p hq))

/-- C1: the single-path verdict is the fold of spec section 4.2 — starting
from `false` and setting the verdict to each accepting pattern's include
polarity in sequence order — hence the last matching pattern alone
determines the result (whatever the polarities of the earlier matching
patterns, here the whole prefix `A`), and a path matched by no pattern
yields `false`. -/
theorem match_file_last_match_wins :
    (∀ (A B : List Pattern) (q : Pattern) (f : String),
      q.matcher f = true → (∀ p ∈ B, p.matcher f = false) →
      match_file (A ++ q :: B) f = q.include') ∧
    (∀ (P : List Pattern) (f : String),
      (∀ p ∈ P, p.matcher f = false) → match_file P f = false) := by
  constructor
  · intro A B q f hq hB
    unfold match_file
    rw [List.foldl_append, List.foldl_cons, hq, if_pos rfl]
    exact foldl_verdict_of_no_match B f q.include' hB
  · intro P f h
    exact foldl_verdict_of_no_match P f false h

/-- Witness for C1: a concrete three-pattern sequence in which the first
pattern (polarity exclude) and the second pattern (polarity include) both
accept the path, the third accepts nothing, and the verdict is the second
pattern's polarity. -/
theorem match_file_last_match_wins_witness :
    match_file [Pattern.mk (fun _ => true) false, Pattern.mk (fun s => s == "x") true,
      Pattern.mk (fun _ => false) true] "x" = true :=
  match_file_last_match_wins.1 [Pattern.mk (fun _ => true) false]
    [Pattern.mk (fun _ => false) true] (Pattern.mk (fun s => s == "x") true) "x"
    rfl
    (by intro p hp; rw [List.mem_singleton] at hp; subst hp; rfl)

/-- C4: with an empty pattern sequence the single-path verdict of
`PathSpec.match_file` is `false` for every input path and every
normalization. -/
theorem match_file_empty_excludes (norm : String → String) (f : String) :
    PathSpec.match_file [] norm f = false := rfl

/-- One pattern's pass over the candidate paths in `match_files`: the
mapping after the pass holds the pattern's polarity at every candidate path
its matcher accepts, and is unchanged elsewhere. -/
theorem inner_pass_apply (p : Pattern) (fs : List String) (m : String → Bool)
    (f : String) :
    (fs.foldl
      (fun m f => if p.matcher f then (fun g => if g = f then p.include' else m g) else m)
      m) f
    = if f ∈ fs ∧ p.matcher f = true then p.include' else m f := by
  induction fs generalizing m with
  | nil => simp
  | cons x fs ih =>
    rw [List.foldl_cons, ih]
    by_cases hx : p.matcher x = true
    · rw [if_pos hx]
      by_cases hmem : f ∈ fs ∧ p.matcher f = true
      · rw [if_pos hmem, if_pos ⟨List.mem_cons_of_mem x hmem.1, hmem.2⟩]
      · rw [if_neg hmem]
        by_cases hfx : f = x
        · subst hfx
          rw [if_pos rfl, if_pos ⟨List.mem_cons_self f fs, hx⟩]
        · rw [if_neg hfx, if_neg]
          intro ⟨hin, hacc⟩
          rcases List.mem_cons.mp hin with h | h
          · exact hfx h
          · exact hmem ⟨h, hacc⟩
    · rw [if_neg hx]
      by_cases hmem : f ∈ fs ∧ p.matcher f = true
      · rw [if_pos hmem, if_pos ⟨List.mem_cons_of_mem x hmem.1, hmem.2⟩]
      · rw [if_neg hmem, if_neg]
        intro ⟨hin, hacc⟩
        rcases List.mem_cons.mp hin with h | h
        · subst h; exact hx hacc
        · exact hmem ⟨h, hacc⟩

/-- The pattern-major fold of `match_files`, read at any candidate path,
agrees with the path-major verdict fold of `match_file` started from that
path's current mapping value. -/
theorem outer_pass_apply (P : List Pattern) (fs : List String) (m : String → Bool)
    (f : String) (hf : f ∈ fs) :
    (P.foldl
      (fun m p => fs.foldl
        (fun m f => if p.matcher f then (fun g => if g = f then p.include' else m g) else m) m)
      m) f
    = P.foldl (fun verdict p => if p.matcher f then p.include' else verdict) (m f) := by
  induction P generalizing m with
  | nil => rfl
  | cons p P ih =>
    rw [List.foldl_cons, List.foldl_cons, ih, inner_pass_apply]
    by_cases hacc : p.matcher f = true
    · rw [if_pos ⟨hf, hacc⟩, hacc, if_pos rfl]
    · rw [if_neg (fun h => hacc h.2)]
      have : p.matcher f = false := Bool.not_eq_true _ |>.mp hacc
      rw [this]
      simp

/-- C2: the batch operation `match_files` returns exactly the candidate
paths whose single-path `match_file` verdict is true, and in particular a
single path `f` is in the batch result over the one-element set containing
it exactly when its single-path verdict is true. -/
theorem match_files_refines_match_file (P : List Pattern) (files : List String)
    (f : String) :
    (f ∈ match_files P files ↔ f ∈ files ∧ match_file P f = true) ∧
    (match_file P f = true ↔ f ∈ match_files P [f]) := by
  have main : ∀ (fs : List String), f ∈ match_files P fs ↔ f ∈ fs ∧ match_file P f = true := by
    intro fs
    unfold match_files
    rw [List.mem_filter]
    constructor
    · intro ⟨hin, hv⟩
      refine ⟨hin, ?_⟩
      rw [outer_pass_apply P fs _ f hin] at hv
      exact hv
    · intro ⟨hin, hv⟩
      refine ⟨hin, ?_⟩
      rw [outer_pass_apply P fs _ f hin]
      exact hv
  refine ⟨main files, ?_⟩
  rw [main [f]]
  simp

/-! ## Claims about `PathSpec` construction and equality -/

/-- C3 counterexample: constructing a `PathSpec` from the three lines
`"# comment"`, `""`, `"foo"` yields a `patterns` attribute of length 2, not
1 — `PathSpec.__init__` filters out only falsy (empty) lines, so the comment
line is still passed to the factory and its `None` result is kept as an
entry. -/
theorem pathspec_three_lines_not_one_pattern :
    (PathSpec.init GrepWildMatchPattern.compile ["# comment", "", "foo"] none).len = 2 ∧
    ¬ (PathSpec.init GrepWildMatchPattern.compile ["# comment", "", "foo"] none).len = 1 := by
  constructor
  · rfl
  · decide

/-- C3 amended: compiling a blank line, a line of only trailing-strippable
whitespace, or a comment line produces no pattern (the factory returns
`None`); but `PathSpec.__init__` drops only empty lines, so a comment line
still contributes its `None` factory result as an entry of `patterns`: the
three lines `"# comment"`, `""`, `"foo"` yield a `patterns` sequence of
length 2 holding exactly one actual compiled pattern. -/
theorem compile_blank_comment_yield_no_pattern :
    (∀ line, stripTrailingWs line = "" → GrepWildMatchPattern.compile line = none) ∧
    (∀ line rest, (stripTrailingWs line).data = '#' :: rest →
      GrepWildMatchPattern.compile line = none) ∧
    ((PathSpec.init GrepWildMatchPattern.compile ["# comment", "", "foo"] none).patterns
      = [none, some (CompiledPattern.mk "foo" true false false)]) ∧
    ((PathSpec.init GrepWildMatchPattern.compile
        ["# comment", "", "foo"] none).patterns.filterMap id).length = 1 := by
  refine ⟨?_, ?_, ?_, ?_⟩
  · intro line h
    unfold GrepWildMatchPattern.compile
    rw [h]
  · intro line rest h
    unfold GrepWildMatchPattern.compile
    rw [h]
    rfl
  · decide
  · decide

/-- Witness for the amended C3: the factory really returns `None` on a
concrete whitespace-only line and on a concrete comment line. -/
theorem compile_blank_comment_yield_no_pattern_witness :
    GrepWildMatchPattern.compile "   " = none ∧
    GrepWildMatchPattern.compile "# comment" = none :=
  ⟨compile_blank_comment_yield_no_pattern.1 "   " (by decide),
   compile_blank_comment_yield_no_pattern.2.1 "# comment" " comment".data (by decide)⟩

/-- The pattern sequence with its trailing `None` entries removed. -/
def rstripNone : List (Option CompiledPattern) → List (Option CompiledPattern)
  | [] => []
  | x :: xs => if x = none ∧ rstripNone xs = [] then [] else x :: rstripNone xs

/-- A padded-pairwise comparison against the empty sequence succeeds exactly
when every entry is `None`. -/
theorem py_all_eq_nil_right (xs : List (Option CompiledPattern)) :
    py_all_eq xs [] = true ↔ rstripNone xs = [] := by
  induction xs with
  | nil => simp [py_all_eq, py_all_none, rstripNone]
  | cons x xs ih =>
    simp only [py_all_eq, pyEq, Bool.and_eq_true, decide_eq_true_eq, ih, rstripNone]
    constructor
    · intro ⟨h1, h2⟩
      rw [if_pos ⟨h1, h2⟩]
    · intro h
      by_cases hc : x = none ∧ rstripNone xs = []
      · exact hc
      · rw [if_neg hc] at h
        exact absurd h (List.cons_ne_nil _ _)

/-- Symmetric form of `py_all_eq_nil_right`. -/
theorem py_all_none_iff_rstrip_nil (ys : List (Option CompiledPattern)) :
    py_all_none ys = true ↔ rstripNone ys = [] := by
  induction ys with
  | nil => simp [py_all_none, rstripNone]
  | cons y ys ih =>
    simp only [py_all_none, pyEq, Bool.and_eq_true, decide_eq_true_eq, ih, rstripNone]
    constructor
    · intro ⟨h1, h2⟩
      rw [if_pos ⟨h1.symm, h2⟩]
    · intro h
      by_cases hc : y = none ∧ rstripNone ys = []
      · exact ⟨hc.1.symm, hc.2⟩
      · rw [if_neg hc] at h
        exact absurd h (List.cons_ne_nil _ _)

/-- The padded-pairwise comparison of `PathSpec.__eq__` succeeds exactly when
the two pattern sequences agree after discarding trailing `None` entries. -/
theorem py_all_eq_iff_rstrip (xs ys : List (Option CompiledPattern)) :
    py_all_eq xs ys = true ↔ rstripNone xs = rstripNone ys := by
  induction xs generalizing ys with
  | nil =>
    show py_all_none ys = true ↔ rstripNone [] = rstripNone ys
    rw [py_all_none_iff_rstrip_nil, show rstripNone [] = [] from rfl]
    exact eq_comm
  | cons x xs ih =>
    cases ys with
    | nil =>
      rw [py_all_eq_nil_right]
      show rstripNone (x :: xs) = [] ↔ rstripNone (x :: xs) = rstripNone []
      simp [rstripNone]
    | cons y ys =>
      simp only [py_all_eq, pyEq, Bool.and_eq_true, decide_eq_true_eq, ih]
      constructor
      · intro ⟨hxy, htail⟩
        subst hxy
        show rstripNone (x :: xs) = rstripNone (x :: ys)
        simp only [rstripNone, htail]
      · intro h
        simp only [rstripNone] at h
        by_cases h1 : x = none ∧ rstripNone xs = []
        · rw [if_pos h1] at h
          by_cases h2 : y = none ∧ rstripNone ys = []
          · exact ⟨h1.1.trans h2.1.symm, h1.2.trans h2.2.symm⟩
          · rw [if_neg h2] at h
            exact absurd h.symm (List.cons_ne_nil _ _)
        · rw [if_neg h1] at h
          by_cases h2 : y = none ∧ rstripNone ys = []
          · rw [if_pos h2] at h
            exact absurd h (List.cons_ne_nil _ _)
          · rw [if_neg h2] at h
            injection h with h3 h4
            exact ⟨h3, h4⟩

/-- A sequence with no `None` entry is unchanged by discarding trailing
`None` entries. -/
theorem rstripNone_of_no_none (xs : List (Option CompiledPattern))
    (h : ∀ x ∈ xs, x ≠ none) : rstripNone xs = xs := by
  induction xs with
  | nil => rfl
  | cons x xs ih =>
    have hx : x ≠ none := h x (List.mem_cons_self x xs)
    rw [rstripNone, if_neg (fun hc => hx hc.1),
      ih (fun y hy => h y (List.mem_cons_of_mem x hy))]

/-- C5 counterexample: two `PathSpec` instances whose pattern sequences have
different lengths (1 and 0) and which `PathSpec.__eq__` nevertheless reports
equal — the single entry of the first is the `None` the factory returned for
a comment line, and `None` equals the `None` padding of `izip_longest`. -/
theorem pathspec_eq_unequal_lengths_counterexample :
    (PathSpec.init GrepWildMatchPattern.compile ["# comment"] none).len = 1 ∧
    (PathSpec.init GrepWildMatchPattern.compile [] none).len = 0 ∧
    PathSpec.eq (PathSpec.init GrepWildMatchPattern.compile ["# comment"] none)
      (PathSpec.init GrepWildMatchPattern.compile [] none) = true := by
  refine ⟨rfl, rfl, ?_⟩
  rfl

/-- C5 amended: `PathSpec.__eq__` holds exactly when the two pattern
sequences agree position by position after `None` padding — equivalently,
when they are equal once trailing `None` entries are discarded. In
particular two `PathSpec`s whose pattern sequences have different lengths
are unequal whenever every entry is an actual pattern (`None` entries, as
produced for comment lines, can make a longer sequence equal to a shorter
one). -/
theorem pathspec_eq_characterization :
    (∀ a b : PathSpec, PathSpec.eq a b = true ↔
      rstripNone a.patterns = rstripNone b.patterns) ∧
    (∀ a b : PathSpec, (∀ x ∈ a.patterns, x ≠ none) → (∀ x ∈ b.patterns, x ≠ none) →
      a.patterns.length ≠ b.patterns.length → PathSpec.eq a b = false) := by
  constructor
  · intro a b
    exact py_all_eq_iff_rstrip a.patterns b.patterns
  · intro a b ha hb hlen
    cases heq : PathSpec.eq a b with
    | false => rfl
    | true =>
      have h := (py_all_eq_iff_rstrip a.patterns b.patterns).mp heq
      rw [rstripNone_of_no_none a.patterns ha, rstripNone_of_no_none b.patterns hb] at h
      exact absurd (congrArg List.length h) hlen

/-- Witness for the amended C5: two concrete `PathSpec`s with all-pattern
sequences of lengths 1 and 0 compare unequal. -/
theorem pathspec_eq_characterization_witness :
    PathSpec.eq (PathSpec.init GrepWildMatchPattern.compile ["a"] none)
      (PathSpec.init GrepWildMatchPattern.compile [] none) = false :=
  pathspec_eq_characterization.2
    (PathSpec.init GrepWildMatchPattern.compile ["a"] none)
    (PathSpec.init GrepWildMatchPattern.compile [] none)
    (by decide) (by decide) (by decide)

/-! ## Claims about the specfile chain and error reporting -/

/-- C6: every call of `PathSpec.push_specfile` raises a `TypeError`, whatever
the receiver, the filesystem and the specfile path — `from_specfile` either
rejects the path or reaches its mis-arity call of `from_lines` — so the
parent/child linking and the pattern concatenation the claim describes are
never performed. -/
theorem push_specfile_always_raises (self : PathSpec)
    (fs : String → Option (List String)) (specfile_path : String) :
    ∃ msg, (self.push_specfile fs specfile_path).1 = .error (.typeError msg) := by
  unfold PathSpec.push_specfile PathSpec.from_specfile
  cases fs specfile_path with
  | none => exact ⟨"specfile_path is not a file path.", rfl⟩
  | some _ => exact ⟨"from_lines missing 1 required positional argument", rfl⟩

/-- C7: no operation on a constructed `PathSpec` mutates it. The only two
methods that are not pure reads over the receiver are `push_specfile`
(whose assignments sit after the `from_specfile` call that always raises)
and `pop_specfile` (whose body never assigns); both leave the receiver's
`patterns`, `lines`, `parent` and `child` attributes — the whole state —
exactly as constructed. -/
theorem pathspec_never_mutated (self : PathSpec)
    (fs : String → Option (List String)) (specfile_path : String) :
    (self.push_specfile fs specfile_path).2 = self ∧
    (self.pop_specfile).2 = self := by
  constructor
  · unfold PathSpec.push_specfile PathSpec.from_specfile
    cases fs specfile_path with
    | none => rfl
    | some _ => rfl
  · rfl

/-- C9: `PathSpec.pop_specfile` raises `AttributeError` exactly when the
receiver has no parent; with a parent it returns that parent unchanged, and
the receiver's state is left exactly as it was in every case. -/
theorem pop_specfile_spec (self : PathSpec) :
    (self.parent = none →
      (self.pop_specfile).1 = .error (.attributeError
        "The current specfile has no parent and cannot fulfill the pop request.")) ∧
    (∀ p, self.parent = some p → (self.pop_specfile).1 = .ok p) ∧
    ((∃ msg, (self.pop_specfile).1 = .error (.attributeError msg)) → self.parent = none) ∧
    (self.pop_specfile).2 = self := by
  refine ⟨?_, ?_, ?_, rfl⟩
  · intro h
    unfold PathSpec.pop_specfile
    rw [h]
  · intro p h
    unfold PathSpec.pop_specfile
    rw [h]
  · intro ⟨msg, h⟩
    unfold PathSpec.pop_specfile at h
    cases hp : self.parent with
    | none => rfl
    | some p => rw [hp] at h; exact absurd h (by simp)

/-- Witness for C9: a concrete child `PathSpec` whose parent is the
`PathSpec` compiled from no lines; popping returns exactly that parent. -/
theorem pop_specfile_spec_witness :
    ((PathSpec.mk (.factory GrepWildMatchPattern.compile) ["a"]
      [some (CompiledPattern.mk "a" true false false)]
      (some (PathSpec.init GrepWildMatchPattern.compile [] none)) none).pop_specfile).1
    = .ok (PathSpec.init GrepWildMatchPattern.compile [] none) :=
  (pop_specfile_spec
    (PathSpec.mk (.factory GrepWildMatchPattern.compile) ["a"]
      [some (CompiledPattern.mk "a" true false false)]
      (some (PathSpec.init GrepWildMatchPattern.compile [] none)) none)).2.1
    (PathSpec.init GrepWildMatchPattern.compile [] none) rfl

/-- C8: the type-shape configuration errors are fatal `TypeError`s reported
before any work: `from_lines` raises when the factory argument does not
resolve to a callable — in particular for every unregistered dialect name —
or when the lines argument is not iterable; `match_files` and
`match_entries` raise when their argument is not iterable. In each case the
result is the raised error: no `PathSpec` and no verdict is produced. -/
theorem config_type_errors :
    (∀ (pf lines : PyVal), callable (resolveFactory pf) = false →
      ∃ msg, PathSpec.from_lines pf lines = .error (.typeError msg)) ∧
    (∀ (name : String) (lines : PyVal), name ≠ "grepwildmatch" →
      ∃ msg, PathSpec.from_lines (.str name) lines = .error (.typeError msg)) ∧
    (∀ (pf lines : PyVal), _is_iterable lines = false →
      ∃ msg, PathSpec.from_lines pf lines = .error (.typeError msg)) ∧
    (∀ (patterns : List Pattern) (norm : String → String) (files : PyVal),
      _is_iterable files = false →
      ∃ msg, PathSpec.match_files patterns norm files = .error (.typeError msg)) ∧
    (∀ (patterns : List Pattern) (norm : String → String) (entries : PyVal),
      _is_iterable entries = false →
      ∃ msg, PathSpec.match_entries patterns norm entries = .error (.typeError msg)) := by
  have hfrom : ∀ (pf lines : PyVal), callable (resolveFactory pf) = false →
      ∃ msg, PathSpec.from_lines pf lines = .error (.typeError msg) := by
    intro pf lines h
    unfold PathSpec.from_lines
    cases hr : resolveFactory pf with
    | factory f => rw [hr] at h; exact absurd h (by simp [callable])
    | str s => exact ⟨_, rfl⟩
    | strList ls => exact ⟨_, rfl⟩
    | pyNone => exact ⟨_, rfl⟩
    | intVal n => exact ⟨_, rfl⟩
  refine ⟨hfrom, ?_, ?_, ?_, ?_⟩
  · intro name lines h
    apply hfrom
    show callable (resolveFactory (.str name)) = false
    show callable (lookup_pattern name) = false
    unfold lookup_pattern
    rw [if_neg h]
    rfl
  · intro pf lines h
    unfold PathSpec.from_lines
    cases resolveFactory pf with
    | factory f => rw [h]; exact ⟨_, rfl⟩
    | str s => exact ⟨_, rfl⟩
    | strList ls => exact ⟨_, rfl⟩
    | pyNone => exact ⟨_, rfl⟩
    | intVal n => exact ⟨_, rfl⟩
  · intro patterns norm files h
    unfold PathSpec.match_files
    rw [h]
    exact ⟨_, rfl⟩
  · intro patterns norm entries h
    unfold PathSpec.match_entries
    rw [h]
    exact ⟨_, rfl⟩

/-- Witness for C8: concrete bad inputs — the unregistered dialect name
`gitwildmatch`, a `None` lines argument, and `None` batch arguments — each
produce a `TypeError`. -/
theorem config_type_errors_witness :
    (∃ msg, PathSpec.from_lines (.str "gitwildmatch") (.strList ["a"])
      = .error (.typeError msg)) ∧
    (∃ msg, PathSpec.from_lines (.factory GrepWildMatchPattern.compile) .pyNone
      = .error (.typeError msg)) ∧
    (∃ msg, PathSpec.match_files [] id .pyNone = .error (.typeError msg)) ∧
    (∃ msg, PathSpec.match_entries [] id (.intVal 0) = .error (.typeError msg)) :=
  ⟨config_type_errors.2.1 "gitwildmatch" (.strList ["a"]) (by decide),
   config_type_errors.2.2.1 (.factory GrepWildMatchPattern.compile) .pyNone rfl,
   config_type_errors.2.2.2.1 [] id .pyNone rfl,
   config_type_errors.2.2.2.2 [] id (.intVal 0) rfl⟩

/-! ## The specfile recognizer of `GrepWildMatchPattern` -/

/-- The head of a nonempty `dropWhile` result fails the predicate. -/
theorem dropWhile_head_false {α : Type} (pred : α → Bool) (L : List α)
    (c : α) (rest : List α) (h : L.dropWhile pred = c :: rest) :
    pred c = false := by
  induction L with
  | nil => simp [List.dropWhile] at h
  | cons x xs ih =>
    rw [List.dropWhile_cons] at h
    by_cases hx : pred x = true
    · rw [if_pos hx] at h
      exact ih h
    · rw [if_neg hx] at h
      injection h with h1 _
      subst h1
      exact Bool.not_eq_true _ |>.mp hx

/-- Lemma: `takeWhile` passes over a block whose members all satisfy the
predicate. -/
theorem takeWhile_append_of_all {α : Type} (pred : α → Bool) (T rest : List α)
    (hT : ∀ c ∈ T, pred c = true) :
    (T ++ rest).takeWhile pred = T ++ rest.takeWhile pred := by
  induction T with
  | nil => rfl
  | cons t T ih =>
    rw [List.cons_append, List.takeWhile_cons,
      if_pos (hT t (List.mem_cons_self t T)), List.cons_append,
      ih (fun c hc => hT c (List.mem_cons_of_mem t hc))]

/-- Lemma: `takeWhile` keeps a list whose members all satisfy the predicate. -/
theorem takeWhile_eq_of_all {α : Type} (pred : α → Bool) (T : List α)
    (hT : ∀ c ∈ T, pred c = true) : T.takeWhile pred = T := by
  have := takeWhile_append_of_all pred T [] hT
  simpa using this

/-- Lemma: `takeWhile pred L` equals a list `T` of members satisfying the
predicate exactly when `L` is `T` itself or `T` followed by a failing
element. -/
theorem takeWhile_eq_iff {α : Type} (pred : α → Bool) (L T : List α)
    (hT : ∀ c ∈ T, pred c = true) :
    L.takeWhile pred = T ↔
      (L = T ∨ ∃ c rest, pred c = false ∧ L = T ++ c :: rest) := by
  constructor
  · intro h
    have hsplit : T ++ L.dropWhile pred = L := by
      rw [← h]
      exact List.takeWhile_append_dropWhile pred L
    cases hd : L.dropWhile pred with
    | nil =>
      left
      rw [← hsplit, hd, List.append_nil]
    | cons c rest =>
      right
      exact ⟨c, rest, dropWhile_head_false pred L c rest hd, by rw [← hsplit, hd]⟩
  · intro h
    rcases h with h | ⟨c, rest, hc, h⟩
    · rw [h]
      exact takeWhile_eq_of_all pred T hT
    · subst h
      rw [takeWhile_append_of_all pred T _ hT, List.takeWhile_cons,
        if_neg (by rw [hc]; exact Bool.false_ne_true), List.append_nil]

/-- C10: as written, a call of `GrepWildMatchPattern.is_specfile` raises
`NameError` (the module never binds `os`), and the intended body — the
check the source line spells — holds exactly for the path `".grepignore"`
itself and for every path whose final `/`-separated component is
`".grepignore"`. -/
theorem is_specfile_spec :
    (∀ p, GrepWildMatchPattern.is_specfile_call p
      = .error (.nameError "name os is not defined")) ∧
    (∀ p : String, GrepWildMatchPattern.is_specfile p = true ↔
      (p = ".grepignore" ∨
        ∃ q : List Char, p.data = q ++ '/' :: ".grepignore".data)) := by
  refine ⟨fun p => rfl, ?_⟩
  intro p
  have key : GrepWildMatchPattern.is_specfile p = true ↔
      p.data.reverse.takeWhile (fun c => c != '/') = ".grepignore".data.reverse := by
    unfold GrepWildMatchPattern.is_specfile basename
    rw [beq_iff_eq]
    constructor
    · intro h
      have h2 : (p.data.reverse.takeWhile (fun c => c != '/')).reverse
          = ".grepignore".data := congrArg String.data h
      rw [← List.reverse_reverse (List.takeWhile _ _), h2]
    · intro h
      rw [h]
      rfl
  rw [key, takeWhile_eq_iff (fun c => c != '/') p.data.reverse
    (".grepignore".data.reverse) (by decide)]
  constructor
  · intro h
    rcases h with h | ⟨c, rest, hc, h⟩
    · left
      have h2 : p.data = ".grepignore".data := by
        rw [← List.reverse_reverse p.data, h, List.reverse_reverse]
      exact String.ext h2
    · right
      have hc' : c = '/' := by
        revert hc
        simp [bne]
      subst hc'
      refine ⟨rest.reverse, ?_⟩
      rw [← List.reverse_reverse p.data, h, List.reverse_append,
        List.reverse_cons, List.reverse_reverse, List.append_assoc]
      rfl
  · intro h
    rcases h with h | ⟨q, hq⟩
    · left
      rw [h]
    · right
      refine ⟨'/', q.reverse, by decide, ?_⟩
      rw [hq, List.reverse_append, List.reverse_cons, List.append_assoc]
      rfl

end Pathspec
